import Mathlib

/-!
Verification of the audit-check pipeline of `script.py` (Urgent Medical
Device case study).  The script loads five spreadsheet tables, filters the
customer invoices to fiscal year 2017, joins them to the sales orders, and
runs the audit checks: revenue/receivable reconciliation, three-way
matching, credit-limit checking and receivables aging.  This file gives a
shallow embedding of that pipeline: tables are lists of records, nullable
dataframe cells are `Option` values, the left joins of the dataframe
library are `List.find?` lookups, and the skip-missing sums of the
dataframe library are an explicit recursion over optional values.  The
`astype(int)` cast of the credit-limit check, which raises on a missing
value, is embedded as an `Option`-returning step.
-/

/-- Monetary amounts (`SubTotal`, `TotalDue`, `CredLimit`) are embedded as
rationals; the script holds them as machine floats but every property
checked here is about exact arithmetic on small values. -/
abbrev Money := ℚ

/-- Day number of a civil date, in days since 1970-01-01 (the standard
days-from-civil computation).  This embeds the timestamp subtraction that
the script delegates to the dataframe library
(`(pd.to_datetime("20171231") - InvoiceDate).dt.days`). -/
def daysFromCivil (y m d : Nat) : Int :=
  let yy : Nat := if m ≤ 2 then y - 1 else y
  let era : Nat := yy / 400
  let yoe : Nat := yy % 400
  let mp : Nat := if m ≤ 2 then m + 9 else m - 3
  let doy : Nat := (153 * mp + 2) / 5 + d - 1
  let doe : Nat := yoe * 365 + yoe / 4 - yoe / 100 + doy
  (era * 146097 + doe : Int) - 719468

/-- A calendar date (a dataframe timestamp at day granularity). -/
structure Date where
  y : Nat
  m : Nat
  d : Nat
deriving DecidableEq

/-- `.dt.year` of a timestamp. -/
def Date.year (dt : Date) : Nat := dt.y

/-- The day number of a date, used for timestamp subtraction. -/
def Date.toDays (dt : Date) : Int := daysFromCivil dt.y dt.m dt.d

/-- The fixed period end `pd.to_datetime("20171231")` of the aging check
(script line 114). -/
def periodEnd : Date := ⟨2017, 12, 31⟩

/-- `numpy`/`pandas` `astype(int)` on a float value: truncation toward
zero. -/
def truncInt (q : Money) : Int := if 0 ≤ q then ⌊q⌋ else ⌈q⌉

/-- A row of the cleaned `customer_invoices` table.  After the loader's
cleaning step (`pd.to_datetime(df["PaidDate"], errors="coerce")`, script
line 22) the `PaidDate` cell is a date or the missing marker `NaT`,
embedded as `Option Date`. -/
structure InvoiceRow where
  invoiceDate : Date
  paidDate : Option Date
  salesOrderID : Nat
deriving DecidableEq

/-- A row of the `sales_orders` table, keyed by `SalesOrderID`; the data
cells are nullable. -/
structure SalesOrderRow where
  salesOrderID : Nat
  invoiceID : Option Nat
  custID : Option Nat
  territoryID : Option Nat
  subTotal : Option Money
  totalDue : Option Money
  shipID : Option Nat
deriving DecidableEq

/-- A row of the `shipments` table, keyed by `ShipID`. -/
structure ShipmentRow where
  shipID : Nat
  shipDate : Option Date
deriving DecidableEq

/-- A row of the `customer_master` table, keyed by `CustID`. -/
structure CustomerRow where
  custID : Nat
  credLimit : Option Money
  territoryID : Option Nat
deriving DecidableEq

/-- The loaded tables used by the audit checks (the `sales_territory`
table only feeds the visualisations, which are outside the pipeline
verified here). -/
structure Dataset where
  customer_invoices : List InvoiceRow
  sales_orders : List SalesOrderRow
  shipments : List ShipmentRow
  customer_master : List CustomerRow
deriving DecidableEq

/-- `invoices = db["customer_invoices"].query("InvoiceDate.dt.year == 2017")`
(script line 42). -/
def inYear (db : Dataset) : List InvoiceRow :=
  db.customer_invoices.filter (fun i => i.invoiceDate.year == 2017)

/-- A row of `sales`: an in-year invoice left-joined to its sales order on
`SalesOrderID` (script line 44).  A join miss leaves every order cell
missing. -/
structure SalesRow where
  salesOrderID : Nat
  invoiceDate : Date
  paidDate : Option Date
  invoiceID : Option Nat
  custID : Option Nat
  territoryID : Option Nat
  subTotal : Option Money
  totalDue : Option Money
  shipID : Option Nat
deriving DecidableEq

/-- The left join of one invoice with the `sales_orders` table on
`SalesOrderID`. -/
def joinOrder (orders : List SalesOrderRow) (i : InvoiceRow) : SalesRow :=
  match orders.find? (fun o => o.salesOrderID == i.salesOrderID) with
  | some o =>
      ⟨i.salesOrderID, i.invoiceDate, i.paidDate,
        o.invoiceID, o.custID, o.territoryID, o.subTotal, o.totalDue, o.shipID⟩
  | none =>
      ⟨i.salesOrderID, i.invoiceDate, i.paidDate, none, none, none, none, none, none⟩

/-- `sales = invoices.join(db["sales_orders"], on="SalesOrderID")`
(script line 44). -/
def sales (db : Dataset) : List SalesRow :=
  (inYear db).map (joinOrder db.sales_orders)

/-- The predicate of `sales.query("PaidDate.dt.year != 2017")` (script
line 45): on the missing marker `.dt.year` is `NaN` and `NaN != 2017`
holds, so a missing `PaidDate` passes the filter. -/
def isUnpaid (r : SalesRow) : Bool :=
  match r.paidDate with
  | none => true
  | some d => d.year != 2017

/-- `unpaid = sales.query("PaidDate.dt.year != 2017")` (script line 45). -/
def unpaid (db : Dataset) : List SalesRow :=
  (sales db).filter isUnpaid

/-- The skip-missing sum of a dataframe column (`Series.sum`, which
treats missing cells as absent). -/
def sumOpt : List (Option Money) → Money
  | [] => 0
  | none :: xs => sumOpt xs
  | some x :: xs => x + sumOpt xs

/-- `revenue = sales["SubTotal"].sum()` (script line 48). -/
def revenue (db : Dataset) : Money := sumOpt ((sales db).map (·.subTotal))

/-- `receivable = unpaid["TotalDue"].sum()` (script line 49). -/
def receivable (db : Dataset) : Money := sumOpt ((unpaid db).map (·.totalDue))

/-- `sales.shape[0]`, the reported count of valid sales records (script
line 50). -/
def salesCount (db : Dataset) : Nat := (sales db).length

/-- `unpaid.shape[0]`, the reported count of unpaid invoices (script
line 51). -/
def unpaidCount (db : Dataset) : Nat := (unpaid db).length

/-- A row of the three-way `matching` frame: the sales row's columns
`InvoiceID, CustID, TerritoryID, SubTotal, ShipID` plus the `ShipDate`
joined from `shipments` (script lines 90-91). -/
structure MatchRow where
  salesOrderID : Nat
  invoiceID : Option Nat
  custID : Option Nat
  territoryID : Option Nat
  subTotal : Option Money
  shipID : Option Nat
  shipDate : Option Date
deriving DecidableEq

/-- `matching.join(db["shipments"]["ShipDate"], on="ShipID")` for one
row: the shipment date is missing when `ShipID` is missing, when no
shipment row matches, or when the matched row's date cell is missing. -/
def joinShip (ships : List ShipmentRow) (r : SalesRow) : MatchRow :=
  ⟨r.salesOrderID, r.invoiceID, r.custID, r.territoryID, r.subTotal, r.shipID,
    r.shipID.bind (fun k => (ships.find? (fun s => s.shipID == k)).bind ShipmentRow.shipDate)⟩

/-- `matching.isna().any(axis=1)` (script line 92): some data cell of the
joined row is missing (the index `SalesOrderID` is not a data cell). -/
def rowIncomplete (r : MatchRow) : Bool :=
  r.invoiceID.isNone || r.custID.isNone || r.territoryID.isNone ||
    r.subTotal.isNone || r.shipID.isNone || r.shipDate.isNone

/-- The three-way matching check (script lines 90-92): join `sales` to
`shipments` on `ShipID` and keep the rows with any missing cell. -/
def matching (db : Dataset) : List MatchRow :=
  ((sales db).map (joinShip db.shipments)).filter rowIncomplete

/-- The group keys of `unpaid[["CustID", "TotalDue"]].groupby("CustID")`
(script line 104): the distinct present `CustID` values; rows whose
`CustID` is missing are dropped by the grouping. -/
def custIDs (rows : List SalesRow) : List Nat :=
  (rows.filterMap SalesRow.custID).dedup

/-- The grouped `TotalDue` sum of one customer (script line 104); the
group sum skips missing cells. -/
def groupTotal (rows : List SalesRow) (c : Nat) : Money :=
  sumOpt ((rows.filter (fun r => r.custID == some c)).map (·.totalDue))

/-- The lookup of a customer in `customer_master` (the join of script
line 105). -/
def custRow (db : Dataset) (c : Nat) : Option CustomerRow :=
  db.customer_master.find? (fun m => m.custID == c)

/-- The credit limit `customer_master` records for a customer. -/
def custLimit (db : Dataset) (c : Nat) : Option Money :=
  (custRow db c).bind CustomerRow.credLimit

/-- The territory `customer_master` records for a customer. -/
def custTerr (db : Dataset) (c : Nat) : Option Nat :=
  (custRow db c).bind CustomerRow.territoryID

/-- One row of the grouped frame joined to
`customer_master[["CredLimit", "TerritoryID"]]` (script lines 104-105),
before the integer cast. -/
structure CheckJoinRow where
  custID : Nat
  totalDue : Money
  credLimit : Option Money
  territoryID : Option Nat
deriving DecidableEq

/-- The joined credit-check row of one customer (script line 105); a
join miss leaves the master cells missing. -/
def mkCheck (db : Dataset) (c : Nat) : CheckJoinRow :=
  match custRow db c with
  | some m => ⟨c, groupTotal (unpaid db) c, m.credLimit, m.territoryID⟩
  | none => ⟨c, groupTotal (unpaid db) c, none, none⟩

/-- The grouped-and-joined credit-check frame (script lines 104-105). -/
def checkJoined (db : Dataset) : List CheckJoinRow :=
  (custIDs (unpaid db)).map (mkCheck db)

/-- One row of the credit-check frame after `astype(int)`. -/
structure CheckIntRow where
  custID : Nat
  totalDue : Int
  credLimit : Int
  territoryID : Nat
deriving DecidableEq

/-- `astype(int)` on one row (script line 105): truncate the numeric
cells, failing (`none`) when a cell is missing, exactly as the cast
raises on a missing value. -/
def castRow (r : CheckJoinRow) : Option CheckIntRow :=
  match r.credLimit, r.territoryID with
  | some cl, some t => some ⟨r.custID, truncInt r.totalDue, truncInt cl, t⟩
  | _, _ => none

/-- The credit-limit check (script lines 104-106): group the unpaid
totals by customer, join the credit limits, cast every cell to integer
(raising, i.e. `none`, if any cell is missing) and keep the rows with
`TotalDue > CredLimit`. -/
def checking (db : Dataset) : Option (List CheckIntRow) :=
  if (checkJoined db).all (fun r => (castRow r).isSome) then
    some (((checkJoined db).filterMap castRow).filter (fun r => r.credLimit < r.totalDue))
  else none

/-- A row of the `aging` frame (script lines 113-114): the unpaid row's
`InvoiceID`, `InvoiceDate`, `TotalDue` and the computed `age_days`. -/
structure AgingRow where
  salesOrderID : Nat
  invoiceID : Option Nat
  invoiceDate : Date
  totalDue : Option Money
  age_days : Int
deriving DecidableEq

/-- One aging row, with
`age_days = (pd.to_datetime("20171231") - InvoiceDate).dt.days`
(script line 114). -/
def mkAging (r : SalesRow) : AgingRow :=
  ⟨r.salesOrderID, r.invoiceID, r.invoiceDate, r.totalDue,
    periodEnd.toDays - r.invoiceDate.toDays⟩

/-- The receivables aging check (script lines 113-115): compute the age
of every unpaid invoice and keep those with `age_days > 90`. -/
def aging (db : Dataset) : List AgingRow :=
  ((unpaid db).map mkAging).filter (fun a => 90 < a.age_days)

/-- Remove every occurrence of `".xlsx"` from a character list, scanning
left to right: the semantics of the python replace call
`file.name.replace(".xlsx", "")` of script line 16.  The fuel argument
(instantiated with the input length) bounds the recursion; every step
consumes at least one character, so the fuel never runs out. -/
def replaceXlsxAux : Nat → List Char → List Char
  | 0, l => l
  | _ + 1, [] => []
  | fuel + 1, c :: cs =>
    if (c :: cs).take 5 = ".xlsx".toList then replaceXlsxAux fuel (cs.drop 4)
    else c :: replaceXlsxAux fuel cs

/-- `file.name.replace(".xlsx", "")` (script line 16). -/
def stripXlsx (s : String) : String :=
  (replaceXlsxAux s.length s.toList).asString

/-- A source file of the input directory: a file name and the table it
parses to.  The table content is abstract (`α`): the loader claims are
about the keys of the produced dictionary and about which file the
cleaning step needs, not about the cells. -/
structure SrcFile (α : Type) where
  name : String
  content : α
deriving DecidableEq

/-- Assignment into a string-keyed dictionary (python `db[k] = v`):
overwrite the value of an existing key in place, else append. -/
def dinsert {α : Type} : List (String × α) → String → α → List (String × α)
  | [], k, v => [(k, v)]
  | (k', v') :: rest, k, v =>
    if k' = k then (k, v) :: rest else (k', v') :: dinsert rest k v

/-- Dictionary lookup (python `db[k]`); `none` embeds the `KeyError`. -/
def dget {α : Type} (db : List (String × α)) (k : String) : Option α :=
  (db.find? (fun p => p.1 == k)).map Prod.snd

/-- The keys of the dictionary. -/
def dkeys {α : Type} (db : List (String × α)) : List String :=
  db.map Prod.fst

/-- The scanning loop of `load_data` (script lines 14-19): read every
file the directory scan yields into the dictionary under its
extension-stripped name.  A file that is absent is simply never yielded
by the scan, so nothing records its absence here. -/
def loadDict {α : Type} (dir : List (SrcFile α)) : List (String × α) :=
  dir.foldl (fun d f => dinsert d (stripXlsx f.name) f.content) []

/-- `load_data` (script lines 13-23): build the dictionary from the
directory scan, then clean the `customer_invoices` table (re-parse its
`PaidDate` column, embedded as the abstract `clean` function) and write
it back in place.  The cleaning step looks the table up by name, so a
directory without a file named `customer_invoices` makes the whole load
fail (`KeyError`, embedded as `none`); a directory missing any other
file loads without an error and simply lacks that key. -/
def load_data {α : Type} (clean : α → α) (dir : List (SrcFile α)) :
    Option (List (String × α)) :=
  match dget (loadDict dir) "customer_invoices" with
  | none => none
  | some t => some (dinsert (loadDict dir) "customer_invoices" (clean t))

/-- A small concrete dataset exercising every check: invoices unpaid by
the null marker, unpaid by a 2018 payment, paid in year, out of year,
and with a dangling `SalesOrderID`. -/
def dbW : Dataset :=
  ⟨[⟨⟨2017, 10, 1⟩, none, 1⟩,
    ⟨⟨2017, 10, 2⟩, some ⟨2018, 1, 15⟩, 2⟩,
    ⟨⟨2017, 5, 1⟩, some ⟨2017, 6, 1⟩, 3⟩,
    ⟨⟨2016, 5, 1⟩, none, 1⟩,
    ⟨⟨2017, 7, 1⟩, none, 99⟩],
   [⟨1, some 11, some 1, some 5, some 150, some 150, some 21⟩,
    ⟨2, some 12, some 2, some 5, some 200, some 100, some 22⟩,
    ⟨3, some 13, some 3, some 5, some 50, some 50, none⟩],
   [⟨21, some ⟨2017, 10, 3⟩⟩, ⟨22, some ⟨2017, 10, 4⟩⟩],
   [⟨1, some 150, some 5⟩, ⟨2, some 99, some 5⟩]⟩

/-- The empty dataset. -/
def dbE : Dataset := ⟨[], [], [], []⟩

/-- A dataset with an unpaid invoice whose customer is absent from the
customer master. -/
def dbNoMaster : Dataset :=
  ⟨[⟨⟨2017, 3, 1⟩, none, 1⟩],
   [⟨1, some 11, some 9, some 5, some 10, some 10, some 21⟩],
   [],
   []⟩

/-- An input directory holding four of the five source files: the
shipments file is absent. -/
def dirMissingShip : List (SrcFile Nat) :=
  [⟨"customer_invoices.xlsx", 1⟩, ⟨"sales_orders.xlsx", 2⟩,
   ⟨"customer_master.xlsx", 3⟩, ⟨"sales_territory.xlsx", 4⟩]

/-- An input directory holding all five source files. -/
def dirAll : List (SrcFile Nat) :=
  [⟨"customer_invoices.xlsx", 1⟩, ⟨"sales_orders.xlsx", 2⟩,
   ⟨"shipments.xlsx", 3⟩, ⟨"customer_master.xlsx", 4⟩,
   ⟨"sales_territory.xlsx", 5⟩]

/-- An input directory without the customer invoices file. -/
def dirNoInvoices : List (SrcFile Nat) := [⟨"sales_orders.xlsx", 2⟩]

/-! ## Helper lemmas -/

/-- The skip-missing sum equals the plain sum of the present values. -/
theorem sumOpt_eq (xs : List (Option Money)) : sumOpt xs = (xs.filterMap id).sum := by
  induction xs with
  | nil => simp [sumOpt]
  | cons x xs ih => cases x <;> simp [sumOpt, ih, List.filterMap_cons]

/-- The unpaid predicate of script line 45 holds exactly when the
`PaidDate` year is not 2017 (a missing `PaidDate` has no year 2017). -/
theorem isUnpaid_iff (r : SalesRow) :
    isUnpaid r = true ↔ r.paidDate.map Date.year ≠ some 2017 := by
  cases h : r.paidDate with
  | none => simp [isUnpaid, h]
  | some d => simp [isUnpaid, h]

/-! ## Claims -/

/-- Claim C1: a fiscal-2017 invoice record joined to its sales order is
classified as unpaid exactly when its `PaidDate` year is not 2017, and in
particular every joined record with a missing `PaidDate` is classified as
unpaid. -/
theorem unpaid_iff_paid_year_ne (db : Dataset) (r : SalesRow) (hr : r ∈ sales db) :
    (r ∈ unpaid db ↔ r.paidDate.map Date.year ≠ some 2017) ∧
    (r.paidDate = none → r ∈ unpaid db) := by
  constructor
  · constructor
    · intro hu
      exact (isUnpaid_iff r).mp (List.mem_filter.mp hu).2
    · intro hy
      exact List.mem_filter.mpr ⟨hr, (isUnpaid_iff r).mpr hy⟩
  · intro hnone
    refine List.mem_filter.mpr ⟨hr, ?_⟩
    simp [isUnpaid, hnone]

/-- Witness for C1 on a concrete dataset: a joined 2017 invoice with a
missing `PaidDate` is in the unpaid set. -/
theorem unpaid_iff_paid_year_ne_witness :
    (joinOrder dbW.sales_orders ⟨⟨2017, 10, 1⟩, none, 1⟩ ∈ sales dbW) ∧
    (joinOrder dbW.sales_orders ⟨⟨2017, 10, 1⟩, none, 1⟩ ∈ unpaid dbW) :=
  ⟨by decide,
    (unpaid_iff_paid_year_ne dbW _ (by decide)).2 rfl⟩

/-- Claim C3: the age of an unpaid invoice is the fixed period end
2017-12-31 minus its invoice date, the invoice is flagged exactly when
that age exceeds 90 days, an invoice dated 2017-10-02 (exactly 90 days
before period end) is not flagged, and one dated 2017-10-01 (91 days)
is flagged. -/
theorem aging_flag_iff (db : Dataset) (r : SalesRow) (hr : r ∈ unpaid db) :
    ((mkAging r).age_days = periodEnd.toDays - r.invoiceDate.toDays) ∧
    (mkAging r ∈ aging db ↔ 90 < periodEnd.toDays - r.invoiceDate.toDays) ∧
    (r.invoiceDate = ⟨2017, 10, 2⟩ → (mkAging r).age_days = 90 ∧ mkAging r ∉ aging db) ∧
    (r.invoiceDate = ⟨2017, 10, 1⟩ → (mkAging r).age_days = 91 ∧ mkAging r ∈ aging db) := by
  have hmem : mkAging r ∈ (unpaid db).map mkAging := List.mem_map_of_mem _ hr
  have hiff : mkAging r ∈ aging db ↔ 90 < periodEnd.toDays - r.invoiceDate.toDays := by
    constructor
    · intro h
      have hp := (List.mem_filter.mp h).2
      simpa [mkAging] using hp
    · intro h
      exact List.mem_filter.mpr ⟨hmem, by simpa [mkAging] using h⟩
  have h90 : periodEnd.toDays - Date.toDays ⟨2017, 10, 2⟩ = 90 := by decide
  have h91 : periodEnd.toDays - Date.toDays ⟨2017, 10, 1⟩ = 91 := by decide
  refine ⟨rfl, hiff, ?_, ?_⟩
  · intro hd
    constructor
    · show periodEnd.toDays - r.invoiceDate.toDays = 90
      rw [hd]; exact h90
    · intro h
      have := hiff.mp h
      rw [hd, h90] at this
      exact absurd this (by norm_num)
  · intro hd
    refine ⟨?_, hiff.mpr ?_⟩
    · show periodEnd.toDays - r.invoiceDate.toDays = 91
      rw [hd]; exact h91
    · rw [hd, h91]; norm_num

/-- Witness for C3 on a concrete dataset: the unpaid invoice dated
2017-10-01 is flagged by the aging check with age 91. -/
theorem aging_flag_iff_witness :
    (joinOrder dbW.sales_orders ⟨⟨2017, 10, 1⟩, none, 1⟩ ∈ unpaid dbW) ∧
    (mkAging (joinOrder dbW.sales_orders ⟨⟨2017, 10, 1⟩, none, 1⟩)).age_days = 91 ∧
    mkAging (joinOrder dbW.sales_orders ⟨⟨2017, 10, 1⟩, none, 1⟩) ∈ aging dbW :=
  ⟨by decide,
    (aging_flag_iff dbW _ (by decide)).2.2.2 rfl⟩

/-- Claim C4: a joined invoice-order-shipment record is flagged by the
three-way matching check exactly when some cell of the joined row is
missing; in particular every in-year invoice whose sales order is absent
is flagged, and a fully matched record with no missing cell is not. -/
theorem matching_flag_iff (db : Dataset) :
    (∀ r ∈ sales db,
      (joinShip db.shipments r ∈ matching db ↔
        rowIncomplete (joinShip db.shipments r) = true)) ∧
    (∀ i ∈ db.customer_invoices, i.invoiceDate.year = 2017 →
      db.sales_orders.find? (fun o => o.salesOrderID == i.salesOrderID) = none →
      joinShip db.shipments (joinOrder db.sales_orders i) ∈ matching db) := by
  constructor
  · intro r hr
    constructor
    · intro h
      exact (List.mem_filter.mp h).2
    · intro h
      exact List.mem_filter.mpr ⟨List.mem_map_of_mem _ hr, h⟩
  · intro i hi hy hfind
    have h1 : i ∈ inYear db := List.mem_filter.mpr ⟨hi, by simp only [beq_iff_eq]; exact hy⟩
    have h2 : joinOrder db.sales_orders i ∈ sales db := List.mem_map_of_mem _ h1
    refine List.mem_filter.mpr ⟨List.mem_map_of_mem _ h2, ?_⟩
    simp [joinOrder, hfind, joinShip, rowIncomplete]

/-- Witness for C4 on a concrete dataset: the in-year invoice with
dangling `SalesOrderID` 99 is flagged by the matching check. -/
theorem matching_flag_iff_witness :
    ((⟨⟨2017, 7, 1⟩, none, 99⟩ : InvoiceRow) ∈ dbW.customer_invoices) ∧
    joinShip dbW.shipments (joinOrder dbW.sales_orders ⟨⟨2017, 7, 1⟩, none, 99⟩) ∈ matching dbW :=
  ⟨by decide,
    (matching_flag_iff dbW).2 ⟨⟨2017, 7, 1⟩, none, 99⟩ (by decide) rfl (by decide)⟩

/-- Claim C5: the reconciliation's total revenue is the sum of the
present `SubTotal` cells of the year-2017 invoices joined to sales
orders, the total receivable is the sum of the present `TotalDue` cells
of the joined records whose paid year is not 2017, and the reported
counts are the numbers of those records. -/
theorem revenue_reconciliation_sums (db : Dataset) :
    revenue db = (((inYear db).map (joinOrder db.sales_orders)).filterMap SalesRow.subTotal).sum ∧
    receivable db =
      ((((inYear db).map (joinOrder db.sales_orders)).filter
        (fun r => r.paidDate.map Date.year != some 2017)).filterMap SalesRow.totalDue).sum ∧
    salesCount db = (inYear db).length ∧
    unpaidCount db =
      (((inYear db).map (joinOrder db.sales_orders)).filter
        (fun r => r.paidDate.map Date.year != some 2017)).length := by
  have hfc : ∀ l : List SalesRow,
      l.filter isUnpaid = l.filter (fun r => r.paidDate.map Date.year != some 2017) := by
    intro l
    refine List.filter_congr ?_
    intro r _
    cases h : r.paidDate with
    | none => simp [isUnpaid, h]
    | some d =>
      rw [Bool.eq_iff_iff]
      simp [isUnpaid, h]
  refine ⟨?_, ?_, ?_, ?_⟩
  · rw [revenue, sumOpt_eq, sales, List.filterMap_map]
    rfl
  · rw [receivable, sumOpt_eq, unpaid, hfc, sales, List.filterMap_map]
    rfl
  · rw [salesCount, sales, List.length_map]
  · rw [unpaidCount, unpaid, hfc, sales]

/-- Claim C8: on a dataset with an empty unpaid set every downstream
check returns an empty finding with count zero, and on an empty sales
set the reconciliation and matching check do as well; none of them
fails. -/
theorem empty_checks_ok (db : Dataset) :
    (unpaid db = [] →
      unpaidCount db = 0 ∧ receivable db = 0 ∧ checking db = some [] ∧ aging db = []) ∧
    (sales db = [] →
      salesCount db = 0 ∧ revenue db = 0 ∧ matching db = [] ∧ unpaid db = []) := by
  constructor
  · intro h
    refine ⟨?_, ?_, ?_, ?_⟩
    · simp [unpaidCount, h]
    · simp [receivable, h, sumOpt]
    · simp [checking, checkJoined, custIDs, h]
    · simp [aging, h]
  · intro h
    have hu : unpaid db = [] := by simp [unpaid, h]
    refine ⟨?_, ?_, ?_, hu⟩
    · simp [salesCount, h]
    · simp [revenue, h, sumOpt]
    · simp [matching, h]

/-- Witness for C8 on the empty dataset: every check returns the empty
finding. -/
theorem empty_checks_ok_witness :
    unpaid dbE = [] ∧
    (unpaidCount dbE = 0 ∧ receivable dbE = 0 ∧ checking dbE = some [] ∧ aging dbE = []) :=
  ⟨rfl, (empty_checks_ok dbE).1 rfl⟩

/-- The customer key of a grouped-and-joined credit row. -/
theorem mkCheck_custID (db : Dataset) (c : Nat) : (mkCheck db c).custID = c := by
  cases hm : custRow db c <;> simp [mkCheck, hm]

/-- The integer cast keeps the customer key. -/
theorem castRow_custID {r : CheckJoinRow} {r' : CheckIntRow}
    (h : castRow r = some r') : r'.custID = r.custID := by
  cases hcl : r.credLimit with
  | none => simp [castRow, hcl] at h
  | some cl =>
    cases ht : r.territoryID with
    | none => simp [castRow, hcl, ht] at h
    | some t =>
      rw [castRow, hcl, ht] at h
      cases h
      rfl

/-- The integer cast records the truncated total and limit. -/
theorem castRow_eq {r : CheckJoinRow} {cl : Money} {t : Nat}
    (hcl : r.credLimit = some cl) (ht : r.territoryID = some t) :
    castRow r = some ⟨r.custID, truncInt r.totalDue, truncInt cl, t⟩ := by
  rw [castRow, hcl, ht]

/-- A successful credit-limit check means every cast succeeded, and the
output is the flagged subset of the cast rows. -/
theorem checking_eq (db : Dataset) (out : List CheckIntRow)
    (h : checking db = some out) :
    (checkJoined db).all (fun r => (castRow r).isSome) = true ∧
    out = ((checkJoined db).filterMap castRow).filter (fun r => r.credLimit < r.totalDue) := by
  by_cases hall : (checkJoined db).all (fun r => (castRow r).isSome) = true
  · rw [checking, if_pos hall] at h
    cases h
    exact ⟨hall, rfl⟩
  · rw [checking, if_neg hall] at h
    cases h

/-- For a nonnegative limit, truncation toward zero is the floor, so an
integer exceeds the truncated limit exactly when it exceeds the limit. -/
theorem truncInt_lt (q : Money) (h0 : 0 ≤ q) (z : Int) :
    truncInt q < z ↔ q < (z : Money) := by
  rw [truncInt, if_pos h0]
  exact Int.floor_lt

/-- Claim C2: a customer with unpaid invoices and a nonnegative,
integer-representable credit limit is flagged by the credit-limit check
exactly when the truncated sum of their unpaid `TotalDue` strictly
exceeds the limit; a truncated sum equal to the limit is not flagged and
one unit over is flagged. -/
theorem credit_flag_iff (db : Dataset) (out : List CheckIntRow)
    (hok : checking db = some out) (c : Nat) (hc : c ∈ custIDs (unpaid db))
    (cl : Money) (hcl : custLimit db c = some cl) (h0 : 0 ≤ cl) :
    ((∃ r ∈ out, r.custID = c) ↔ cl < (truncInt (groupTotal (unpaid db) c) : Money)) ∧
    ((truncInt (groupTotal (unpaid db) c) : Money) = cl → ¬ ∃ r ∈ out, r.custID = c) ∧
    ((truncInt (groupTotal (unpaid db) c) : Money) = cl + 1 → ∃ r ∈ out, r.custID = c) := by
  obtain ⟨hall, hout⟩ := checking_eq db out hok
  obtain ⟨m, hm, hmcl⟩ : ∃ m, custRow db c = some m ∧ m.credLimit = some cl := by
    rw [custLimit] at hcl
    cases hcr : custRow db c with
    | none => rw [hcr] at hcl; cases hcl
    | some m => rw [hcr] at hcl; exact ⟨m, rfl, hcl⟩
  have hmk : mkCheck db c = ⟨c, groupTotal (unpaid db) c, m.credLimit, m.territoryID⟩ := by
    rw [mkCheck, hm]
  have hmkmem : mkCheck db c ∈ checkJoined db := List.mem_map_of_mem _ hc
  have hsome : (castRow (mkCheck db c)).isSome = true :=
    List.all_eq_true.mp hall _ hmkmem
  obtain ⟨t, hmt⟩ : ∃ t, m.territoryID = some t := by
    cases ht : m.territoryID with
    | none => rw [hmk, castRow, hmcl, ht] at hsome; cases hsome
    | some t => exact ⟨t, rfl⟩
  have hcast : castRow (mkCheck db c) =
      some ⟨c, truncInt (groupTotal (unpaid db) c), truncInt cl, t⟩ := by
    rw [hmk, castRow, hmcl, hmt]
  have harith := truncInt_lt cl h0 (truncInt (groupTotal (unpaid db) c))
  have hexists : (∃ r ∈ out, r.custID = c) ↔
      truncInt cl < truncInt (groupTotal (unpaid db) c) := by
    constructor
    · rintro ⟨r, hrout, hrc⟩
      rw [hout] at hrout
      obtain ⟨hrf, hpred⟩ := List.mem_filter.mp hrout
      obtain ⟨a, ha, hcasta⟩ := List.mem_filterMap.mp hrf
      obtain ⟨c', hc', hac⟩ := List.mem_map.mp ha
      have hac' : r.custID = c' := by
        rw [castRow_custID (hac ▸ hcasta), mkCheck_custID]
      have hcc : c' = c := by rw [← hac', hrc]
      subst hcc
      rw [← hac, hcast] at hcasta
      cases hcasta
      simpa using hpred
    · intro hlt
      refine ⟨⟨c, truncInt (groupTotal (unpaid db) c), truncInt cl, t⟩, ?_, rfl⟩
      rw [hout]
      refine List.mem_filter.mpr ⟨?_, ?_⟩
      · exact List.mem_filterMap.mpr ⟨mkCheck db c, hmkmem, hcast⟩
      · simpa using hlt
  refine ⟨hexists.trans harith, ?_, ?_⟩
  · intro heq hex
    have := (hexists.trans harith).mp hex
    rw [heq] at this
    exact lt_irrefl cl this
  · intro hone
    refine (hexists.trans harith).mpr ?_
    rw [hone]
    exact lt_add_one cl

/-- Witness for C2 on a concrete dataset: customer 2 owes 100 against a
limit of 99 and is flagged; the check completed. -/
theorem credit_flag_iff_witness :
    checking dbW = some [⟨2, 100, 99, 5⟩] ∧
    2 ∈ custIDs (unpaid dbW) ∧ custLimit dbW 2 = some 99 ∧
    (∃ r ∈ [(⟨2, 100, 99, 5⟩ : CheckIntRow)], r.custID = 2) := by
  have h1 : groupTotal (unpaid dbW) 1 = 150 := by
    norm_num [groupTotal, unpaid, sales, inYear, dbW, joinOrder, isUnpaid, sumOpt]
  have h2 : groupTotal (unpaid dbW) 2 = 100 := by
    norm_num [groupTotal, unpaid, sales, inYear, dbW, joinOrder, isUnpaid, sumOpt]
  have hcids : custIDs (unpaid dbW) = [1, 2] := by decide
  have r1 : custRow dbW 1 = some ⟨1, some 150, some 5⟩ := by decide
  have r2 : custRow dbW 2 = some ⟨2, some 99, some 5⟩ := by decide
  have t1 : truncInt 150 = 150 := by rw [truncInt, if_pos (by norm_num)]; norm_num
  have t2 : truncInt 100 = 100 := by rw [truncInt, if_pos (by norm_num)]; norm_num
  have t3 : truncInt 99 = 99 := by rw [truncInt, if_pos (by norm_num)]; norm_num
  have hok : checking dbW = some [⟨2, 100, 99, 5⟩] := by
    rw [checking, checkJoined, hcids]
    simp only [List.map, mkCheck, r1, r2]
    rw [h1, h2]
    simp only [castRow, t1, t2, t3, List.all_cons, List.all_nil, Option.isSome_some,
      Bool.and_true, if_true, List.filterMap, List.filter]
    norm_num
  refine ⟨hok, by decide, by decide, ?_⟩
  refine ((credit_flag_iff dbW _ hok 2 (by decide) 99 (by decide) (by norm_num)).1).mpr ?_
  rw [h2, t2]
  norm_num

/-- The cast of a customer's credit row succeeds exactly when the
customer master lookup supplied both a credit limit and a territory. -/
theorem castRow_mkCheck_isSome (db : Dataset) (c : Nat) :
    (castRow (mkCheck db c)).isSome = true ↔
      ¬(custLimit db c = none ∨ custTerr db c = none) := by
  cases hm : custRow db c with
  | none => simp [mkCheck, hm, castRow, custLimit, custTerr]
  | some m =>
    cases hcl : m.credLimit <;> cases ht : m.territoryID <;>
      simp [mkCheck, hm, castRow, custLimit, custTerr, hcl, ht]

/-- Counterexample to claim C6: on a dataset whose unpaid invoice
belongs to customer 9, absent from the customer master, the credit-limit
check does not recover — its integer cast fails (the `astype(int)` of
script line 105 raises on the missing credit limit, embedded as
`none`). -/
theorem credit_check_raises_on_missing_master :
    checking dbNoMaster = none ∧
    9 ∈ custIDs (unpaid dbNoMaster) ∧
    custRow dbNoMaster 9 = none := by
  exact ⟨by decide, by decide, by decide⟩

/-- Claim C6 (amended): a miss of the invoice-to-sales-order join is
recovered as missing cells and surfaced by the matching check, and the
grouping of the credit-limit check silently drops unpaid invoices whose
`CustID` is missing (every group key comes from a present `CustID`); but
the credit-limit check itself fails exactly when some grouped customer
lacks a credit limit or territory in the customer master. -/
theorem join_miss_recovery (db : Dataset) :
    (∀ i ∈ inYear db,
      db.sales_orders.find? (fun o => o.salesOrderID == i.salesOrderID) = none →
      (joinOrder db.sales_orders i).custID = none ∧
      (joinOrder db.sales_orders i).subTotal = none ∧
      joinShip db.shipments (joinOrder db.sales_orders i) ∈ matching db) ∧
    (∀ c ∈ custIDs (unpaid db), ∃ r ∈ unpaid db, r.custID = some c) ∧
    (checking db = none ↔
      ∃ c ∈ custIDs (unpaid db), custLimit db c = none ∨ custTerr db c = none) := by
  refine ⟨?_, ?_, ?_⟩
  · intro i hi hfind
    refine ⟨by simp [joinOrder, hfind], by simp [joinOrder, hfind], ?_⟩
    have h2 : joinOrder db.sales_orders i ∈ sales db := List.mem_map_of_mem _ hi
    refine List.mem_filter.mpr ⟨List.mem_map_of_mem _ h2, ?_⟩
    simp [joinOrder, hfind, joinShip, rowIncomplete]
  · intro c hc
    obtain ⟨r, hr, hrc⟩ := List.mem_filterMap.mp (List.mem_dedup.mp hc)
    exact ⟨r, hr, hrc⟩
  · by_cases hall : (checkJoined db).all (fun r => (castRow r).isSome) = true
    · rw [checking, if_pos hall]
      constructor
      · intro h
        cases h
      · rintro ⟨c, hc, hbad⟩
        have hs := List.all_eq_true.mp hall (mkCheck db c) (List.mem_map_of_mem _ hc)
        exact absurd hbad ((castRow_mkCheck_isSome db c).mp hs)
    · rw [checking, if_neg hall]
      constructor
      · intro _
        have hnall : ¬ ∀ x ∈ checkJoined db, (castRow x).isSome = true := fun hf =>
          hall (List.all_eq_true.mpr hf)
        push_neg at hnall
        obtain ⟨x, hx, hxn⟩ := hnall
        obtain ⟨c, hc, hxc⟩ := List.mem_map.mp hx
        subst hxc
        refine ⟨c, hc, ?_⟩
        by_contra hcon
        exact hxn ((castRow_mkCheck_isSome db c).mpr hcon)
      · intro _
        rfl

/-- Witness for the amended C6 on a concrete dataset: the dataset whose
grouped customer 9 has no master row makes the check fail. -/
theorem join_miss_recovery_witness :
    checking dbNoMaster = none :=
  (join_miss_recovery dbNoMaster).2.2.mpr ⟨9, by decide, Or.inl (by decide)⟩

/-- Restricting a list to the elements where `f` is defined does not
change `filterMap f`. -/
theorem filterMap_filter_isSome {α β : Type} (f : α → Option β) (l : List α) :
    (l.filter (fun x => (f x).isSome)).filterMap f = l.filterMap f := by
  induction l with
  | nil => simp
  | cons x xs ih =>
    cases hf : f x <;>
      simp [List.filter_cons, hf, List.filterMap_cons, ih]

/-- A list with an element failing the predicate strictly shrinks under
the filter. -/
theorem filter_length_lt {α : Type} (p : α → Bool) (l : List α) (x : α)
    (hx : x ∈ l) (hpx : p x = false) : (l.filter p).length < l.length := by
  induction l with
  | nil => cases hx
  | cons a as ih =>
    rcases List.mem_cons.mp hx with h | h
    · subst h
      rw [List.filter_cons_of_neg (by simp [hpx])]
      exact Nat.lt_succ_of_le (List.length_filter_le _ _)
    · by_cases hpa : p a = true
      · rw [List.filter_cons_of_pos hpa]
        simpa using Nat.succ_lt_succ (ih h)
      · rw [List.filter_cons_of_neg (by simpa using hpa)]
        exact Nat.lt_succ_of_lt (ih h)

/-- Claim C10: an in-year invoice whose `SalesOrderID` matches no sales
order still contributes a row to the valid-sales count, its missing
`SubTotal` is skipped by the revenue sum, and therefore the count ranges
over strictly more records than the revenue sum. -/
theorem join_miss_count_vs_sum (db : Dataset) (i : InvoiceRow)
    (h1 : i ∈ db.customer_invoices) (h2 : i.invoiceDate.year = 2017)
    (h3 : db.sales_orders.find? (fun o => o.salesOrderID == i.salesOrderID) = none) :
    joinOrder db.sales_orders i ∈ sales db ∧
    (joinOrder db.sales_orders i).subTotal = none ∧
    revenue db = (((sales db).filter (fun r => r.subTotal.isSome)).filterMap SalesRow.subTotal).sum ∧
    ((sales db).filter (fun r => r.subTotal.isSome)).length < salesCount db := by
  have hin : i ∈ inYear db :=
    List.mem_filter.mpr ⟨h1, by simp only [beq_iff_eq]; exact h2⟩
  have hmem : joinOrder db.sales_orders i ∈ sales db := List.mem_map_of_mem _ hin
  have hnone : (joinOrder db.sales_orders i).subTotal = none := by
    simp [joinOrder, h3]
  refine ⟨hmem, hnone, ?_, ?_⟩
  · rw [revenue, sumOpt_eq, filterMap_filter_isSome SalesRow.subTotal (sales db)]
    rw [List.filterMap_map]
    rfl
  · exact filter_length_lt _ _ _ hmem (by simp [hnone])

/-- Witness for C10 on a concrete dataset: the invoice with dangling
order 99 makes the revenue sum range over fewer records than the
count. -/
theorem join_miss_count_vs_sum_witness :
    ((⟨⟨2017, 7, 1⟩, none, 99⟩ : InvoiceRow) ∈ dbW.customer_invoices) ∧
    ((sales dbW).filter (fun r => r.subTotal.isSome)).length < salesCount dbW :=
  ⟨by decide, (join_miss_count_vs_sum dbW ⟨⟨2017, 7, 1⟩, none, 99⟩
    (by decide) rfl (by decide)).2.2.2⟩

/-- Dictionary assignment adds exactly its own key to the key set. -/
theorem mem_dkeys_dinsert {α : Type} (d : List (String × α)) (k k' : String) (v : α) :
    k' ∈ dkeys (dinsert d k v) ↔ k' = k ∨ k' ∈ dkeys d := by
  induction d with
  | nil => simp [dinsert, dkeys]
  | cons p rest ih =>
    obtain ⟨k₁, v₁⟩ := p
    by_cases h : k₁ = k
    · subst h
      simp [dinsert, dkeys]
    · simp only [dinsert, if_neg h, dkeys, List.map_cons, List.mem_cons]
      rw [show dkeys (dinsert rest k v) = (dinsert rest k v).map Prod.fst from rfl] at ih
      rw [show dkeys rest = rest.map Prod.fst from rfl] at ih
      rw [ih]
      tauto

/-- A key reads back as a `KeyError` exactly when it is not in the key
set. -/
theorem dget_none_iff {α : Type} (d : List (String × α)) (k : String) :
    dget d k = none ↔ k ∉ dkeys d := by
  induction d with
  | nil => simp [dget, dkeys]
  | cons p rest ih =>
    obtain ⟨k₁, v₁⟩ := p
    by_cases h : k₁ = k
    · subst h
      simp [dget, dkeys, List.find?_cons]
    · simp only [dget, List.find?_cons] at ih ⊢
      rw [show ((k₁ == k) : Bool) = false from by simp [h]]
      simp only [dkeys, List.map_cons, List.mem_cons]
      rw [ih]
      constructor
      · rintro hnot (h1 | h2)
        · exact h h1.symm
        · exact hnot h2
      · intro hnot h2
        exact hnot (Or.inr h2)

/-- The keys of the scanned dictionary are the extension-stripped file
names of the directory (on top of whatever the fold started from). -/
theorem foldl_dinsert_mem {α : Type} (dir : List (SrcFile α))
    (d0 : List (String × α)) (k : String) :
    k ∈ dkeys (dir.foldl (fun d f => dinsert d (stripXlsx f.name) f.content) d0) ↔
      k ∈ dkeys d0 ∨ ∃ f ∈ dir, stripXlsx f.name = k := by
  induction dir generalizing d0 with
  | nil => simp
  | cons f fs ih =>
    rw [List.foldl_cons, ih, mem_dkeys_dinsert]
    simp only [List.mem_cons]
    constructor
    · rintro ((h | h) | ⟨g, hg, hgk⟩)
      · exact Or.inr ⟨f, Or.inl rfl, h.symm⟩
      · exact Or.inl h
      · exact Or.inr ⟨g, Or.inr hg, hgk⟩
    · rintro (h | ⟨g, (rfl | hg), hgk⟩)
      · exact Or.inl (Or.inr h)
      · exact Or.inl (Or.inl hgk.symm)
      · exact Or.inr ⟨g, hg, hgk⟩

/-- Claim C9: when the load succeeds, the key set of the produced
dataset is exactly the set of source file names with the extension
stripped, and re-loading from the same inputs yields the same result
(the loader is a pure function of the directory). -/
theorem load_keys_idem {α : Type} (clean : α → α) (dir : List (SrcFile α))
    (db : List (String × α)) (h : load_data clean dir = some db) :
    (∀ k : String, k ∈ dkeys db ↔ ∃ f ∈ dir, stripXlsx f.name = k) ∧
    load_data clean dir = load_data clean dir := by
  refine ⟨?_, rfl⟩
  intro k
  cases hget : dget (loadDict dir) "customer_invoices" with
  | none =>
    rw [load_data, hget] at h
    cases h
  | some t =>
    rw [load_data, hget] at h
    cases h
    have hci : "customer_invoices" ∈ dkeys (loadDict dir) := by
      by_contra hno
      rw [← dget_none_iff] at hno
      rw [hget] at hno
      cases hno
    rw [mem_dkeys_dinsert, loadDict, foldl_dinsert_mem]
    rw [loadDict, foldl_dinsert_mem] at hci
    simp only [dkeys, List.map_nil, List.not_mem_nil, false_or] at hci ⊢
    constructor
    · rintro (rfl | h)
      · exact hci
      · exact h
    · intro h
      exact Or.inr h

/-- Witness for C9: loading the full five-file directory succeeds and
the key `shipments` is present exactly because `shipments.xlsx` is in
the directory. -/
theorem load_keys_idem_witness :
    load_data (fun n : Nat => n) dirAll =
      some [("customer_invoices", 1), ("sales_orders", 2), ("shipments", 3),
        ("customer_master", 4), ("sales_territory", 5)] ∧
    ("shipments" ∈ dkeys [("customer_invoices", (1 : Nat)), ("sales_orders", 2),
        ("shipments", 3), ("customer_master", 4), ("sales_territory", 5)] ↔
      ∃ f ∈ dirAll, stripXlsx f.name = "shipments") :=
  ⟨by decide, (load_keys_idem (fun n : Nat => n) dirAll _ (by decide)).1 "shipments"⟩

/-- Counterexample to claim C7: with the `shipments` file absent from
the input directory the load does not fail — it returns a partial
dataset that holds the invoice table but has no `shipments` key, so the
failure is deferred to whichever check first reads that table. -/
theorem load_succeeds_without_shipments :
    (load_data (fun n : Nat => n) dirMissingShip).isSome = true ∧
    ((load_data (fun n : Nat => n) dirMissingShip).bind
      (fun db => dget db "shipments")) = none ∧
    ((load_data (fun n : Nat => n) dirMissingShip).bind
      (fun db => dget db "customer_invoices")).isSome = true := by
  exact ⟨by decide, by decide, by decide⟩

/-- Claim C7 (amended): the load fails exactly when the directory has no
file whose extension-stripped name is `customer_invoices`; the absence
of any other declared source file does not fail the load. -/
theorem load_fails_iff {α : Type} (clean : α → α) (dir : List (SrcFile α)) :
    load_data clean dir = none ↔ ∀ f ∈ dir, stripXlsx f.name ≠ "customer_invoices" := by
  cases hget : dget (loadDict dir) "customer_invoices" with
  | none =>
    rw [load_data, hget]
    have hno := (dget_none_iff _ _).mp hget
    rw [loadDict, foldl_dinsert_mem] at hno
    simp only [dkeys, List.map_nil, List.not_mem_nil, false_or] at hno
    constructor
    · intro _ f hf heq
      exact hno ⟨f, hf, heq⟩
    · intro _
      rfl
  | some t =>
    rw [load_data, hget]
    constructor
    · intro h
      cases h
    · intro hforall
      have hci : "customer_invoices" ∈ dkeys (loadDict dir) := by
        by_contra hno
        rw [← dget_none_iff] at hno
        rw [hget] at hno
        cases hno
      rw [loadDict, foldl_dinsert_mem] at hci
      simp only [dkeys, List.map_nil, List.not_mem_nil, false_or] at hci
      obtain ⟨f, hf, heq⟩ := hci
      exact absurd heq (hforall f hf)

/-- Witness for the amended C7: a directory with only the sales orders
file fails the load. -/
theorem load_fails_iff_witness :
    load_data (fun n : Nat => n) dirNoInvoices = none :=
  (load_fails_iff (fun n : Nat => n) dirNoInvoices).mpr (by decide)
